/-
Verification of the TAXGROK_AI document-extraction slice.

Shallow embedding of:
  - the upload route (document intake, mime/size validation, filename-based
    document-type inference),
  - the processing route (orchestrator: provider selection, fallback,
    status updates, chunked event stream),
  - the DocumentAIService normalizer (entity mapping, generic fuzzy
    form-field matching, average confidence),
  - the interactive what-if scenario component (custom deduction scenarios).

Strings are modelled as `List Char`; JavaScript string methods
(`toLowerCase`, `includes`, `replace`, `slice`) are given explicit
executable counterparts.  Machine numbers are modelled as `Nat`/`Rat`.
-/
import Mathlib

namespace TaxGrok

/-! ## String primitives (JS counterparts) -/

/-- JS `String.prototype.toLowerCase` restricted to the ASCII range used by
the code under study. -/
def jsToLower (s : List Char) : List Char :=
  s.map Char.toLower

/-- Substring containment: JS `haystack.includes(needle)`. -/
def containsSub (needle : List Char) : List Char → Bool
  | [] => needle.isEmpty
  | c :: t => needle.isPrefixOf (c :: t) || containsSub needle t

/-- ASCII alphanumeric test, the character class `[a-zA-Z0-9]`. -/
def isAsciiAlnum (c : Char) : Bool :=
  (('a' ≤ c && c ≤ 'z') || ('A' ≤ c && c ≤ 'Z') || ('0' ≤ c && c ≤ '9'))

/-- JS `s.toLowerCase().replace(/[^a-zA-Z0-9]/g, '')`: lowercase then strip
every non-alphanumeric character. -/
def normalizeLabel (s : List Char) : List Char :=
  (jsToLower s).filter isAsciiAlnum

/-! ## Document types and statuses -/

inductive DocumentType where
  | W2
  | FORM_1099_INT
  | FORM_1099_DIV
  | FORM_1099_MISC
  | FORM_1099_NEC
  | FORM_1099_R
  | FORM_1099_G
  | OTHER_TAX_DOCUMENT
  | UNKNOWN
deriving DecidableEq, Repr

inductive ProcessingStatus where
  | PENDING
  | PROCESSING
  | COMPLETED
  | FAILED
deriving DecidableEq, Repr

/-! ## Document intake: `determineDocumentType` (upload route) -/

/-- Embedding of `determineDocumentType` from the upload route: a chain of
case-insensitive substring checks against the uploaded filename, first
match wins. -/
def determineDocumentType (fileName : List Char) : DocumentType :=
  ofLower (jsToLower fileName)
where
  /-- The chain of substring checks, applied to the lowercased name. -/
  ofLower (lowerName : List Char) : DocumentType :=
  if containsSub ("w-2".toList) lowerName || containsSub ("w2".toList) lowerName then
    .W2
  else if containsSub ("1099-int".toList) lowerName then
    .FORM_1099_INT
  else if containsSub ("1099-div".toList) lowerName then
    .FORM_1099_DIV
  else if containsSub ("1099-misc".toList) lowerName then
    .FORM_1099_MISC
  else if containsSub ("1099-nec".toList) lowerName then
    .FORM_1099_NEC
  else if containsSub ("1099-r".toList) lowerName then
    .FORM_1099_R
  else if containsSub ("1099-g".toList) lowerName then
    .FORM_1099_G
  else if containsSub ("1099".toList) lowerName then
    .OTHER_TAX_DOCUMENT
  else
    .UNKNOWN

/-- Spec-side restatement of the documented inference priority, written
from the claim's words ("case-insensitive substring match in this priority
order, first match wins"), to be compared with the code's
`determineDocumentType`. -/
def specDocumentTypePriority (fileName : List Char) : DocumentType :=
  ofLower (jsToLower fileName)
where
  /-- The claim's priority list, one check per line, first match wins. -/
  ofLower (l : List Char) : DocumentType :=
  if containsSub ("w-2".toList) l then .W2
  else if containsSub ("w2".toList) l then .W2
  else if containsSub ("1099-int".toList) l then .FORM_1099_INT
  else if containsSub ("1099-div".toList) l then .FORM_1099_DIV
  else if containsSub ("1099-misc".toList) l then .FORM_1099_MISC
  else if containsSub ("1099-nec".toList) l then .FORM_1099_NEC
  else if containsSub ("1099-r".toList) l then .FORM_1099_R
  else if containsSub ("1099-g".toList) l then .FORM_1099_G
  else if containsSub ("1099".toList) l then .OTHER_TAX_DOCUMENT
  else .UNKNOWN

/-! ## Provider payload (Document AI) -/

/-- One text segment of a `textAnchor`; `startIndex`/`endIndex` are absent
or zero-valued in the provider payload exactly as in the JS object. -/
structure TextSegment where
  startIndex : Option Nat
  endIndex : Option Nat
deriving DecidableEq, Repr

structure TextAnchor where
  textSegments : List TextSegment
deriving DecidableEq, Repr

/-- An entity of the specialized processor: a type code, an optional text
anchor and an optional confidence score. -/
structure Entity where
  type : List Char
  textAnchor : Option TextAnchor
  confidence : Option ℚ
deriving DecidableEq, Repr

/-- One side (name or value) of a key/value form field. -/
structure FieldPart where
  textAnchor : Option TextAnchor
  confidence : Option ℚ
deriving DecidableEq, Repr

structure FormField where
  fieldName : Option FieldPart
  fieldValue : Option FieldPart
deriving DecidableEq, Repr

structure GPage where
  formFields : Option (List FormField)
deriving DecidableEq, Repr

/-- The provider's returned document: full OCR text, optional entity list,
optional page list. -/
structure GDocument where
  text : List Char
  entities : Option (List Entity)
  pages : Option (List GPage)
deriving DecidableEq, Repr

/-- JS whitespace test for `String.prototype.trim` (ASCII fragment). -/
def isJsSpace (c : Char) : Bool :=
  c = ' ' || c = '\t' || c = '\n' || c = '\r'

/-- JS `String.prototype.trim`. -/
def jsTrim (s : List Char) : List Char :=
  ((s.dropWhile isJsSpace).reverse.dropWhile isJsSpace).reverse

/-- JS `String.prototype.substring`: clamps both indices to the length and
swaps them when out of order. -/
def jsSubstring (s : List Char) (a b : Nat) : List Char :=
  let a' := min a s.length
  let b' := min b s.length
  ((s.drop (min a' b')).take (max a' b' - min a' b'))

/-- Embedding of `DocumentAIService.getText`: resolve the first text
segment of an anchor against the full OCR text (`startIndex || 0`,
`endIndex || fullText.length`) and trim the result. -/
def getText (textAnchor : Option TextAnchor) (fullText : List Char) : List Char :=
  match textAnchor with
  | none => []
  | some a =>
    match a.textSegments with
    | [] => []
    | seg :: _ =>
      let s := seg.startIndex.getD 0
      let e := match seg.endIndex with
        | some n => if n = 0 then fullText.length else n
        | none => fullText.length
      jsTrim (jsSubstring fullText s e)

/-! ## Canonical field schemas and the generic fuzzy matcher -/

/-- A canonical extraction object: an insertion-ordered key/value mapping,
the model of the mutable JS data object. -/
abbrev DataObject : Type := List (List Char × List Char)

/-- Set the (unique) key `key` to `val`, preserving declaration order. -/
def setKey : DataObject → List Char → List Char → DataObject
  | [], _, _ => []
  | (k, v) :: t, key, val =>
    if k = key then (k, val) :: t else (k, v) :: setKey t key val

/-- The fuzzy match test of `extractGenericFormFields`: the normalized
label contains the normalized key or vice versa. -/
def fuzzyMatches (key label : List Char) : Bool :=
  containsSub (normalizeLabel key) (normalizeLabel label) ||
    containsSub (normalizeLabel label) (normalizeLabel key)

/-- The inner `for (const [key, value] of Object.entries(dataObject))`
loop: walk the entries in declaration order, overwrite the first key whose
normalized form matches the normalized label, then `break`. -/
def fuzzyAssign (label value : List Char) : DataObject → DataObject
  | [] => []
  | (k, v) :: t =>
    if fuzzyMatches k label then (k, value) :: t
    else (k, v) :: fuzzyAssign label value t

/-- The `formFields` list of `document.pages[0]`, empty when pages or
fields are absent — the `document.pages && document.pages[0]?.formFields`
guard. -/
def pageZeroFields (doc : GDocument) : List FormField :=
  match doc.pages with
  | none => []
  | some [] => []
  | some (p :: _) => p.formFields.getD []

/-- One iteration of the `extractGenericFormFields` field loop: skip the
field unless both name and value carry a text anchor, otherwise fuzzily
assign the resolved value. -/
def processFormField (fullText : List Char) (obj : DataObject) (f : FormField) :
    DataObject :=
  match f.fieldName, f.fieldValue with
  | some fn, some fv =>
    match fn.textAnchor, fv.textAnchor with
    | some na, some va =>
        fuzzyAssign (getText (some na) fullText) (getText (some va) fullText) obj
    | _, _ => obj
  | _, _ => obj

/-- Embedding of `DocumentAIService.extractGenericFormFields`. -/
def extractGenericFormFields (doc : GDocument) (obj : DataObject) : DataObject :=
  (pageZeroFields doc).foldl (processFormField doc.text) obj

/-- The 1099-INT schema, in declaration order. -/
def data1099IntInit : DataObject :=
  [("payerName".toList, []), ("payerTIN".toList, []), ("payerAddress".toList, []),
   ("recipientName".toList, []), ("recipientTIN".toList, []),
   ("recipientAddress".toList, []), ("interestIncome".toList, []),
   ("earlyWithdrawalPenalty".toList, []), ("interestOnUSavingsBonds".toList, []),
   ("federalTaxWithheld".toList, []), ("investmentExpenses".toList, []),
   ("foreignTaxPaid".toList, []), ("foreignCountry".toList, []),
   ("taxExemptInterest".toList, []), ("privateActivityBondInterest".toList, []),
   ("marketDiscount".toList, []), ("bondPremium".toList, []),
   ("bondPremiumOnTaxExemptBond".toList, []), ("stateCode".toList, []),
   ("stateTaxWithheld".toList, []), ("stateIdNumber".toList, [])]

/-- Embedding of `extract1099IntData`. -/
def extract1099IntData (doc : GDocument) : DataObject :=
  extractGenericFormFields doc data1099IntInit

/-- The W-2 schema (eighteen fields), in declaration order. -/
def w2Init : DataObject :=
  [("employerName".toList, []), ("employerEIN".toList, []),
   ("employerAddress".toList, []), ("employeeName".toList, []),
   ("employeeSSN".toList, []), ("employeeAddress".toList, []),
   ("wages".toList, []), ("federalTaxWithheld".toList, []),
   ("socialSecurityWages".toList, []), ("socialSecurityTaxWithheld".toList, []),
   ("medicareWages".toList, []), ("medicareTaxWithheld".toList, []),
   ("socialSecurityTips".toList, []), ("allocatedTips".toList, []),
   ("stateWages".toList, []), ("stateTaxWithheld".toList, []),
   ("localWages".toList, []), ("localTaxWithheld".toList, [])]

/-- The entity-type switch of `extractW2Data`: map a specialized-processor
entity onto its canonical W-2 field. -/
def w2EntityStep (fullText : List Char) (obj : DataObject) (e : Entity) :
    DataObject :=
  let value := getText e.textAnchor fullText
  if e.type = "employee_name".toList then setKey obj ("employeeName".toList) value
  else if e.type = "employee_ssn".toList then setKey obj ("employeeSSN".toList) value
  else if e.type = "employer_name".toList then setKey obj ("employerName".toList) value
  else if e.type = "employer_ein".toList then setKey obj ("employerEIN".toList) value
  else if e.type = "wages_tips_other_compensation".toList then
    setKey obj ("wages".toList) value
  else if e.type = "federal_income_tax_withheld".toList then
    setKey obj ("federalTaxWithheld".toList) value
  else if e.type = "social_security_wages".toList then
    setKey obj ("socialSecurityWages".toList) value
  else if e.type = "social_security_tax_withheld".toList then
    setKey obj ("socialSecurityTaxWithheld".toList) value
  else if e.type = "medicare_wages_and_tips".toList then
    setKey obj ("medicareWages".toList) value
  else if e.type = "medicare_tax_withheld".toList then
    setKey obj ("medicareTaxWithheld".toList) value
  else obj

/-- The keyword fallback of `extractW2Data` over one form field: a chain of
conjunctive `includes` tests on the lowercased field name. -/
def w2FieldStep (fullText : List Char) (obj : DataObject) (f : FormField) :
    DataObject :=
  match f.fieldName, f.fieldValue with
  | some fn, some fv =>
    match fn.textAnchor, fv.textAnchor with
    | some na, some va =>
      let fieldName := jsToLower (getText (some na) fullText)
      let fieldValue := getText (some va) fullText
      if containsSub ("wages".toList) fieldName &&
          containsSub ("tips".toList) fieldName then
        setKey obj ("wages".toList) fieldValue
      else if containsSub ("federal".toList) fieldName &&
          containsSub ("tax".toList) fieldName then
        setKey obj ("federalTaxWithheld".toList) fieldValue
      else if containsSub ("social security".toList) fieldName &&
          containsSub ("wages".toList) fieldName then
        setKey obj ("socialSecurityWages".toList) fieldValue
      else if containsSub ("medicare".toList) fieldName &&
          containsSub ("wages".toList) fieldName then
        setKey obj ("medicareWages".toList) fieldValue
      else obj
    | _, _ => obj
  | _, _ => obj

/-- Embedding of `extractW2Data`: entity mapping first, then the keyword
form-field fallback over `pages[0].formFields`. -/
def extractW2Data (doc : GDocument) : DataObject :=
  let afterEntities :=
    (doc.entities.getD []).foldl (w2EntityStep doc.text) w2Init
  (pageZeroFields doc).foldl (w2FieldStep doc.text) afterEntities

/-! ## Average confidence -/

/-- Fold a list into a running (total, count) pair, counting only items
that report a confidence score. -/
def addScores {α : Type} (g : α → Option ℚ) (tc : ℚ × Nat) (l : List α) :
    ℚ × Nat :=
  l.foldl (fun tc a =>
    match g a with
    | some c => (tc.1 + c, tc.2 + 1)
    | none => tc) tc

/-- The confidence score a form field reports, when any:
`field.fieldValue?.confidence`. -/
def fieldScore (f : FormField) : Option ℚ :=
  f.fieldValue.bind FieldPart.confidence

/-- Embedding of `calculateAverageConfidence`: accumulate entity scores,
then form-field scores across all pages, and divide; zero when nothing was
counted. -/
def calculateAverageConfidence (doc : GDocument) : ℚ :=
  let tc1 := addScores Entity.confidence (0, 0) (doc.entities.getD [])
  let tc2 := (doc.pages.getD []).foldl
    (fun tc p => addScores fieldScore tc (p.formFields.getD [])) tc1
  if tc2.2 > 0 then tc2.1 / tc2.2 else 0

/-- All per-entity and per-form-field confidence scores the provider
reports, in the order the source walks them. -/
def confScores (doc : GDocument) : List ℚ :=
  (doc.entities.getD []).filterMap Entity.confidence ++
    ((doc.pages.getD []).map fun p => (p.formFields.getD []).filterMap fieldScore).flatten

/-! ## Upload route (document intake) -/

/-- The Document record the upload route inserts. -/
structure DocumentRec where
  fileName : List Char
  fileType : List Char
  fileSize : Nat
  documentType : DocumentType
  processingStatus : ProcessingStatus
deriving DecidableEq, Repr

/-- One chunked event of the processing response stream. `content c`
renders as `data: \x7b"content": c\x7d` followed by a blank line, `done` as
`data: [DONE]` followed by a blank line; `aborted` is `controller.error`,
which terminates the stream without carrying any payload. -/
inductive StreamEvent where
  | content (chunk : List Char)
  | done
  | aborted
deriving DecidableEq, Repr

/-- An HTTP response of either route: a JSON error envelope, the created
Document as JSON, or the chunked event stream. -/
inductive HttpResponse where
  | json (status : Nat) (error : List Char)
  | documentJson (doc : DocumentRec)
  | stream
deriving DecidableEq, Repr

/-- An upload request, after the ambient effects (session lookup, user
lookup, ownership query, file write, record insert) are resolved to their
outcomes. -/
structure UploadRequest where
  authenticated : Bool
  userFound : Bool
  filePresent : Bool
  taxReturnIdPresent : Bool
  taxReturnOwned : Bool
  fileType : List Char
  fileSize : Nat
  fileName : List Char
  writeOk : Bool
  createOk : Bool
deriving DecidableEq, Repr

structure UploadResult where
  response : HttpResponse
  fileWritten : Bool
  createdDoc : Option DocumentRec
deriving DecidableEq, Repr

/-- The upload route's `allowedTypes`. -/
def allowedTypes : List (List Char) :=
  ["application/pdf".toList, "image/png".toList, "image/jpeg".toList,
   "image/tiff".toList]

/-- Embedding of the upload route `POST`: guard chain (auth, user, body
fields, ownership, mime type, size) and then the write + insert, with the
outer catch mapping any storage/db failure to a generic 500. -/
def uploadPOST (r : UploadRequest) : UploadResult :=
  if !r.authenticated then
    ⟨.json 401 ("Unauthorized".toList), false, none⟩
  else if !r.userFound then
    ⟨.json 404 ("User not found".toList), false, none⟩
  else if !(r.filePresent && r.taxReturnIdPresent) then
    ⟨.json 400 ("Missing file or tax return ID".toList), false, none⟩
  else if !r.taxReturnOwned then
    ⟨.json 404 ("Tax return not found".toList), false, none⟩
  else if !(allowedTypes.contains r.fileType) then
    ⟨.json 400 ("Invalid file type. Supported types: PDF, PNG, JPEG, TIFF".toList),
     false, none⟩
  else if r.fileSize > 10 * 1024 * 1024 then
    ⟨.json 400 ("File size exceeds 10MB limit".toList), false, none⟩
  else if !r.writeOk then
    ⟨.json 500 ("Internal server error".toList), false, none⟩
  else if !r.createOk then
    ⟨.json 500 ("Internal server error".toList), true, none⟩
  else
    let doc : DocumentRec :=
      { fileName := r.fileName, fileType := r.fileType, fileSize := r.fileSize,
        documentType := determineDocumentType r.fileName,
        processingStatus := .PENDING }
    ⟨.documentJson doc, true, some doc⟩

/-! ## Secondary (LLM) provider -/

/-- The canonical extraction result both providers produce; the
`extractedData` payload is kept in its serialized form. -/
structure ExtractedTaxData where
  documentType : List Char
  ocrText : List Char
  extractedData : List Char
  confidence : ℚ
deriving DecidableEq, Repr

/-- Outcome of the LLM HTTP call, as observed by `processWithLLM`:
a non-ok response, a missing/empty `choices[0]?.message?.content`, content
that `JSON.parse` rejects, or a parsed JSON object (its `extractedData ||
parsedContent` fallback collapsed into the resulting payload). -/
inductive LLMOutcome where
  | httpError (status : Nat)
  | noContent
  | badJson
  | parsed (documentType : Option (List Char)) (ocrText : Option (List Char))
      (extractedData : List Char)
deriving DecidableEq, Repr

/-- The failures `processWithLLM` throws; the spec's taxonomy names the
first ProviderError and the latter two ParseError. -/
inductive LLMError where
  | providerError (status : Nat)
  | noContentError
  | jsonParseError
deriving DecidableEq, Repr

/-- Spec classification of an `LLMError`: empty content and unparseable
content are both ParseError. -/
def LLMError.isParseError : LLMError → Bool
  | .providerError _ => false
  | .noContentError => true
  | .jsonParseError => true

/-- The stored document as the process route reads it. -/
structure StoredDocument where
  fileName : List Char
  fileType : List Char
  documentType : List Char
deriving DecidableEq, Repr

/-- Embedding of `processWithLLM`: throw on a non-ok HTTP status, throw on
falsy content, throw on unparseable JSON, otherwise build the result with
the fixed 0.85 confidence and the `||` fallbacks of the source. -/
def processWithLLM (doc : StoredDocument) (outcome : LLMOutcome) :
    Except LLMError ExtractedTaxData :=
  match outcome with
  | .httpError s => .error (.providerError s)
  | .noContent => .error .noContentError
  | .badJson => .error .jsonParseError
  | .parsed dt ocr ed =>
    .ok { documentType := dt.getD doc.documentType, ocrText := ocr.getD [],
          extractedData := ed, confidence := 85 / 100 }

/-! ## Chunked event stream -/

/-- The `for (let i = 0; i < s.length; i += 100) s.slice(i, i + 100)` loop:
consecutive 100-character slices of the serialized response. -/
def chunk100 : List Char → List (List Char)
  | [] => []
  | c :: t => (c :: t).take 100 :: chunk100 ((c :: t).drop 100)
termination_by l => l.length
decreasing_by simp; omega

/-- JSON string escaping as `JSON.stringify` performs it on the characters
this system produces. -/
def jsonEscape (s : List Char) : List Char :=
  s.flatMap fun c =>
    if c = '\\' then ['\\', '\\']
    else if c = '"' then ['\\', '"']
    else if c = '\n' then ['\\', 'n']
    else if c = '\r' then ['\\', 'r']
    else if c = '\t' then ['\\', 't']
    else [c]

/-- A JSON string literal. -/
def jsonStr (s : List Char) : List Char :=
  '"' :: (jsonEscape s ++ ['"'])

/-- `JSON.stringify(\x7bdocumentType, ocrText, extractedData\x7d)`: the
serialized response the route chunks (`extractedData` is already a
serialized JSON value). -/
def serializeResult (d : ExtractedTaxData) : List Char :=
  ("\x7b\"documentType\":".toList ++ jsonStr d.documentType ++
   ",\"ocrText\":".toList ++ jsonStr d.ocrText ++
   ",\"extractedData\":".toList ++ d.extractedData ++ "\x7d".toList)

/-- Wire framing of one stream event. -/
def frameEvent : StreamEvent → List Char
  | .content c =>
      ("data: \x7b\"content\":".toList ++ jsonStr c ++ "\x7d\n\n".toList)
  | .done => "data: [DONE]\n\n".toList
  | .aborted => []

/-! ## Process route (extraction orchestrator) -/

/-- JS truthiness of an environment variable: set and non-empty. -/
def truthy : Option (List Char) → Bool
  | none => false
  | some s => !s.isEmpty

/-- The three environment values gating the primary provider. -/
structure Env where
  googleCloudProjectId : Option (List Char)
  googleCloudW2ProcessorId : Option (List Char)
  googleApplicationCredentials : Option (List Char)
deriving DecidableEq, Repr

/-- Outcome of the primary provider call (`createDocumentAIConfig` +
`DocumentAIService.processDocument`): any thrown error, or a result. -/
inductive PrimaryOutcome where
  | throws
  | returns (d : ExtractedTaxData)
deriving DecidableEq, Repr

inductive ProviderSource where
  | primary
  | llm
deriving DecidableEq, Repr

/-- A processing request with its ambient effects resolved: auth/user/doc
lookups, the environment, the outcome each provider would produce if
invoked, and whether the database save inside the stream succeeds. -/
structure ProcessRequest where
  authenticated : Bool
  userFound : Bool
  docFound : Bool
  env : Env
  doc : StoredDocument
  primary : PrimaryOutcome
  llm : LLMOutcome
  saveOk : Bool
deriving DecidableEq, Repr

/-- The payload persisted on success (`prisma.document.update` data). -/
structure SavedExtraction where
  ocrText : List Char
  documentType : List Char
  extractedData : List Char
  confidence : ℚ
deriving DecidableEq, Repr

/-- Everything one processing attempt does: the `processingStatus` values
written, in order; the HTTP response; the emitted stream events; which
providers ran; what was persisted; whose result was kept. -/
structure ProcessResult where
  statusUpdates : List ProcessingStatus
  response : HttpResponse
  events : List StreamEvent
  primaryUsed : Bool
  llmUsed : Bool
  savedData : Option SavedExtraction
  resultFrom : Option ProviderSource
deriving DecidableEq, Repr

/-- The `useDocumentAI` guard: all three configuration values truthy. -/
def useDocumentAI (env : Env) : Bool :=
  truthy env.googleCloudProjectId && truthy env.googleCloudW2ProcessorId &&
    truthy env.googleApplicationCredentials

/-- Embedding of the process route `POST`: guard chain, PROCESSING update,
provider selection with fallback, then either the chunked stream with the
COMPLETED save (FAILED + abort if the save throws), or the outer catch
(FAILED + generic 500). -/
def processPOST (r : ProcessRequest) : ProcessResult :=
  if !r.authenticated then
    ⟨[], .json 401 ("Unauthorized".toList), [], false, false, none, none⟩
  else if !r.userFound then
    ⟨[], .json 404 ("User not found".toList), [], false, false, none, none⟩
  else if !r.docFound then
    ⟨[], .json 404 ("Document not found".toList), [], false, false, none, none⟩
  else
    let llmRes := processWithLLM r.doc r.llm
    let attempt : Except LLMError ExtractedTaxData × Bool × Bool × Option ProviderSource :=
      if useDocumentAI r.env then
        match r.primary with
        | .returns d => (.ok d, true, false, some .primary)
        | .throws =>
          (llmRes, true, true,
           match llmRes with | .ok _ => some .llm | .error _ => none)
      else
        (llmRes, false, true,
         match llmRes with | .ok _ => some .llm | .error _ => none)
    match attempt with
    | (.error _, pu, lu, _) =>
      ⟨[.PROCESSING, .FAILED], .json 500 ("Internal server error".toList), [],
       pu, lu, none, none⟩
    | (.ok d, pu, lu, src) =>
      let chunks := chunk100 (serializeResult d)
      if r.saveOk then
        ⟨[.PROCESSING, .COMPLETED], .stream,
         chunks.map .content ++ [.done], pu, lu,
         some ⟨d.ocrText, d.documentType, d.extractedData, d.confidence⟩, src⟩
      else
        ⟨[.PROCESSING, .FAILED], .stream,
         chunks.map .content ++ [.aborted], pu, lu, none, src⟩

/-! ## Primary-provider processor routing -/

/-- The `DocumentAIConfig` record built by `createDocumentAIConfig`
(optional 1099 processor defaults to the empty string). -/
structure DocumentAIConfig where
  projectId : List Char
  location : List Char
  w2ProcessorId : List Char
  form1099ProcessorId : List Char
deriving DecidableEq, Repr

/-- A processor resource path:
`projects/P/locations/L/processors/ID`. -/
def processorPath (config : DocumentAIConfig) (pid : List Char) : List Char :=
  "projects/".toList ++ config.projectId ++ "/locations/".toList ++
    config.location ++ "/processors/".toList ++ pid

/-- Embedding of `getProcessorName`: W2 uses the W2 processor; the six
1099 variants require a non-falsy 1099 processor id or throw; every other
type falls back to the W2 processor. -/
def getProcessorName (config : DocumentAIConfig) (dt : DocumentType) :
    Except (List Char) (List Char) :=
  match dt with
  | .W2 => .ok (processorPath config config.w2ProcessorId)
  | .FORM_1099_INT | .FORM_1099_DIV | .FORM_1099_MISC
  | .FORM_1099_NEC | .FORM_1099_R | .FORM_1099_G =>
    if config.form1099ProcessorId.isEmpty then
      .error ("No 1099 processor configured".toList)
    else
      .ok (processorPath config config.form1099ProcessorId)
  | _ => .ok (processorPath config config.w2ProcessorId)

/-- Whether a document type is one of the six 1099 variants. -/
def DocumentType.is1099 : DocumentType → Bool
  | .FORM_1099_INT | .FORM_1099_DIV | .FORM_1099_MISC
  | .FORM_1099_NEC | .FORM_1099_R | .FORM_1099_G => true
  | _ => false

/-! ## Interactive what-if scenarios -/

inductive FilingStatus where
  | SINGLE
  | MARRIED_FILING_JOINTLY
  | MARRIED_FILING_SEPARATELY
  | HEAD_OF_HOUSEHOLD
  | QUALIFYING_SURVIVING_SPOUSE
deriving DecidableEq, Repr

/-- A dependent record; its contents never influence this slice. -/
def Dependent : Type := Unit

/-- A user-defined deduction scenario. -/
structure CustomScenario where
  name : List Char
  additionalAmount : ℚ
  deductionType : List Char
deriving DecidableEq, Repr

/-- One row of the scenario table the component renders. -/
structure TaxScenario where
  scenario : List Char
  itemizedDeductions : ℚ
  taxLiability : ℚ
  savings : ℚ
deriving DecidableEq, Repr

/-- The comparison record `calculateDeductionComparison` returns, as the
component consumes it. -/
structure DeductionComparison where
  standardTaxLiability : ℚ
  itemizedTaxLiability : ℚ
  recommendedMethodItemized : Bool
deriving DecidableEq, Repr

/-- The component's `Math.max(0, ...)` sanitization of the adjusted gross
income. -/
def safeAdjustedGrossIncome (agi : ℚ) : ℚ := max 0 agi

/-- The component's `Math.max(0, ...)` sanitization of the itemized
total. -/
def safeCurrentItemizedDeductions (itemized : ℚ) : ℚ := max 0 itemized

/-- `Math.max(safeAdjustedGrossIncome, 50000)`: the income actually fed to
the calculators. -/
def minIncomeForCalculation (agi : ℚ) : ℚ :=
  max (safeAdjustedGrossIncome agi) 50000

/-- Embedding of the custom-scenario branch of the component's
`useEffect`: one custom scenario row, parametric in the imported
`calculateDeductionComparison` and in the already-computed base scenario
list. -/
def customScenarioCalc
    (calcComparison : ℚ → FilingStatus → ℚ → List Dependent → DeductionComparison)
    (baseScenarios : List TaxScenario)
    (agi itemized : ℚ) (status : FilingStatus) (deps : List Dependent)
    (sc : CustomScenario) : TaxScenario :=
  let newComparison := calcComparison (minIncomeForCalculation agi) status
    (safeCurrentItemizedDeductions itemized + sc.additionalAmount) deps
  let baseTaxLiability := ((baseScenarios.head?).map TaxScenario.taxLiability).getD 0
  let newTaxLiability :=
    if newComparison.recommendedMethodItemized then
      newComparison.itemizedTaxLiability
    else
      newComparison.standardTaxLiability
  { scenario := sc.name,
    itemizedDeductions := safeCurrentItemizedDeductions itemized + sc.additionalAmount,
    taxLiability := newTaxLiability,
    savings := baseTaxLiability - newTaxLiability }

/-- Modelled from the spec: the standard deduction table of the missing
`@/lib/enhanced-tax-calculations` module.  The spec fixes only that each
filing status has a standard deduction; the 2023 federal amounts stand
in. -/
def specStandardDeduction : FilingStatus → ℚ
  | .SINGLE => 13850
  | .MARRIED_FILING_JOINTLY => 27700
  | .MARRIED_FILING_SEPARATELY => 13850
  | .HEAD_OF_HOUSEHOLD => 20800
  | .QUALIFYING_SURVIVING_SPOUSE => 27700

/-- Modelled from the spec: the liability computation of the missing
`@/lib/enhanced-tax-calculations` module — tax on the non-negative taxable
income; the spec fixes no bracket schedule, so a single rate stands in.
No division appears, so income 0 cannot raise a division error. -/
def specTaxLiability (income deduction : ℚ) : ℚ :=
  max 0 (income - deduction) * (22 / 100)

/-- Modelled from the spec: `calculateDeductionComparison` of the missing
module — liabilities under the standard and the itemized deduction, and
the recommended method is whichever deduction yields the lower
liability. -/
def specCalculateDeductionComparison (income : ℚ) (status : FilingStatus)
    (itemized : ℚ) (_deps : List Dependent) : DeductionComparison :=
  { standardTaxLiability := specTaxLiability income (specStandardDeduction status),
    itemizedTaxLiability := specTaxLiability income itemized,
    recommendedMethodItemized := itemized > specStandardDeduction status }

/-- Modelled from the spec: `calculateTaxImpactScenarios` of the missing
module — its first element is the baseline scenario, whose liability uses
whichever of the standard and itemized deductions is lower. -/
def specCalculateTaxImpactScenarios (income : ℚ) (status : FilingStatus)
    (itemized : ℚ) (deps : List Dependent) : List TaxScenario :=
  let c := specCalculateDeductionComparison income status itemized deps
  [{ scenario := "Current Situation".toList,
     itemizedDeductions := itemized,
     taxLiability :=
       if c.recommendedMethodItemized then c.itemizedTaxLiability
       else c.standardTaxLiability,
     savings := 0 }]

/-! ## Concrete provider payloads used to exercise the normalizer -/

/-- An anchor selecting `fullText[a..b)`. -/
def anchor (a b : Nat) : TextAnchor := ⟨[⟨some a, some b⟩]⟩

/-- A form field whose name is `fullText[a..b)` and whose value is
`fullText[c..d)`. -/
def mkField (a b c d : Nat) : FormField :=
  { fieldName := some { textAnchor := some (anchor a b), confidence := none },
    fieldValue := some { textAnchor := some (anchor c d), confidence := none } }

/-- OCR text carrying the label `Federal income tax withheld` and the
value `1200`. -/
def fedText : List Char := "Federal income tax withheld1200".toList

/-- A provider document with the single form field
`Federal income tax withheld` → `1200`. -/
def fedDoc : GDocument :=
  { text := fedText, entities := none,
    pages := some [{ formFields := some [mkField 0 27 27 31] }] }

/-- OCR text carrying two fields: `Payer name` → `A` and
`Payer name (see instructions)` → `B`. -/
def owText : List Char := "Payer nameAPayer name (see instructions)B".toList

/-- A provider document whose second form field matches the same canonical
key as the first (by the weaker substring direction). -/
def owDoc : GDocument :=
  { text := owText, entities := none,
    pages := some [{ formFields := some [mkField 0 10 10 11, mkField 11 40 40 41] }] }

/-- Read a canonical field of a data object. -/
def getField (k : List Char) (obj : DataObject) : Option (List Char) :=
  (obj.find? (fun kv => kv.1 = k)).map (fun kv => kv.2)

/-- A concrete processing request with the primary provider unconfigured
and a successful LLM call. -/
def fallbackReq : ProcessRequest :=
  { authenticated := true, userFound := true, docFound := true,
    env := ⟨none, none, none⟩,
    doc := ⟨"my-w2.pdf".toList, "application/pdf".toList, "W2".toList⟩,
    primary := .throws,
    llm := .parsed (some ("W2".toList)) (some ("ocr".toList)) ("42".toList),
    saveOk := true }

end TaxGrok

section C2

open TaxGrok

/-- An `if` on a disjunction of two Booleans splits into two nested `if`s
with the same positive branch. -/
theorem ite_bool_or {α : Type} (a b : Bool) (x r : α) :
    (if a || b then x else r) = if a then x else if b then x else r := by
  cases a <;> cases b <;> rfl

/-- C2: filename-based document-type inference follows the documented
case-insensitive substring priority order, first match wins, and the three
example filenames behave as stated. -/
theorem C2_determineDocumentType_priority :
    (∀ fn : List Char, determineDocumentType fn = specDocumentTypePriority fn) ∧
    determineDocumentType ("My-W2-2023.pdf".toList) = .W2 ∧
    determineDocumentType ("form-1099-xyz.pdf".toList) = .OTHER_TAX_DOCUMENT ∧
    determineDocumentType ("receipt.pdf".toList) = .UNKNOWN := by
  refine ⟨?_, by decide, by decide, by decide⟩
  intro fn
  simp only [determineDocumentType, specDocumentTypePriority]
  rw [determineDocumentType.ofLower, specDocumentTypePriority.ofLower, ite_bool_or]

end C2

section C10

open TaxGrok

/-- C10: a document type that is neither W2 nor a 1099 variant (UNKNOWN,
OTHER_TAX_DOCUMENT) is routed to the W2 processor pipeline rather than
rejected, while a 1099 variant with no configured 1099 pipeline id fails
with a configuration error. -/
theorem C10_getProcessorName_routing :
    (∀ (config : DocumentAIConfig) (dt : DocumentType),
      (dt = .UNKNOWN ∨ dt = .OTHER_TAX_DOCUMENT) →
        getProcessorName config dt =
          .ok (processorPath config config.w2ProcessorId)) ∧
    (∀ (config : DocumentAIConfig) (dt : DocumentType),
      dt.is1099 = true → config.form1099ProcessorId = [] →
        getProcessorName config dt =
          .error ("No 1099 processor configured".toList)) := by
  constructor
  · rintro config dt (rfl | rfl) <;> rfl
  · rintro config dt h1099 hempty
    cases dt <;> simp_all [DocumentType.is1099, getProcessorName, hempty]

end C10

section C9

open TaxGrok

/-- When the secondary provider is the one that runs (primary unconfigured
or thrown) and it fails, the orchestrator lands in the outer catch: the
document is marked FAILED and the generic 500 is returned. -/
theorem processPOST_llm_error (r : ProcessRequest) (e : LLMError)
    (ha : r.authenticated = true) (hu : r.userFound = true)
    (hd : r.docFound = true)
    (hl : processWithLLM r.doc r.llm = .error e)
    (hinvoke : useDocumentAI r.env = false ∨ r.primary = .throws) :
    processPOST r =
      ⟨[.PROCESSING, .FAILED], .json 500 ("Internal server error".toList), [],
       useDocumentAI r.env, true, none, none⟩ := by
  rcases hinvoke with h | h
  · simp [processPOST, ha, hu, hd, h, hl]
  · by_cases hAI : useDocumentAI r.env = true
    · simp [processPOST, ha, hu, hd, hAI, h, hl]
    · simp only [Bool.not_eq_true] at hAI
      simp [processPOST, ha, hu, hd, hAI, hl]

/-- C9: a non-ok HTTP status fails the secondary call with ProviderError;
empty or unparseable content fails it with a ParseError; in either case
the error propagates: the Document is marked FAILED and the caller gets
the generic 500. -/
theorem C9_llm_errors_propagate :
    (∀ (doc : StoredDocument) (s : Nat),
      processWithLLM doc (.httpError s) = .error (.providerError s)) ∧
    (∀ doc : StoredDocument,
      processWithLLM doc .noContent = .error .noContentError ∧
      LLMError.noContentError.isParseError = true) ∧
    (∀ doc : StoredDocument,
      processWithLLM doc .badJson = .error .jsonParseError ∧
      LLMError.jsonParseError.isParseError = true) ∧
    (∀ (r : ProcessRequest) (e : LLMError),
      r.authenticated = true → r.userFound = true → r.docFound = true →
      (useDocumentAI r.env = false ∨ r.primary = .throws) →
      processWithLLM r.doc r.llm = .error e →
      (processPOST r).statusUpdates = [.PROCESSING, .FAILED] ∧
      (processPOST r).response = .json 500 ("Internal server error".toList)) ∧
    (processPOST
      { authenticated := true, userFound := true, docFound := true,
        env := ⟨none, none, none⟩,
        doc := ⟨"a.pdf".toList, "application/pdf".toList, "W2".toList⟩,
        primary := .throws, llm := .httpError 503,
        saveOk := true }).statusUpdates = [.PROCESSING, .FAILED] := by
  refine ⟨fun doc s => rfl, fun doc => ⟨rfl, rfl⟩, fun doc => ⟨rfl, rfl⟩,
    ?_, by decide⟩
  intro r e ha hu hd hinv hl
  rw [processPOST_llm_error r e ha hu hd hl hinv]
  exact ⟨rfl, rfl⟩

end C9

section C8

open TaxGrok

/-- C8: a custom deduction scenario recomputes liability with itemized
deductions equal to the (clamped) current total plus the scenario's
`additionalAmount`; its reported savings equal baseline liability minus
the new liability (a signed delta, zero in the spec's worked example);
income and itemized totals are clamped to non-negative; income 0 is
handled (evaluating to the same well-defined result, no division being
involved). -/
theorem C8_custom_scenario :
    (∀ (lib : ℚ → FilingStatus → ℚ → List Dependent → DeductionComparison)
       (base : List TaxScenario) (agi itemized : ℚ) (status : FilingStatus)
       (deps : List Dependent) (sc : CustomScenario),
      (customScenarioCalc lib base agi itemized status deps sc).itemizedDeductions =
        safeCurrentItemizedDeductions itemized + sc.additionalAmount ∧
      (customScenarioCalc lib base agi itemized status deps sc).savings =
        ((base.head?).map TaxScenario.taxLiability).getD 0 -
          (customScenarioCalc lib base agi itemized status deps sc).taxLiability) ∧
    (∀ x : ℚ, 0 ≤ safeAdjustedGrossIncome x ∧
      0 ≤ safeCurrentItemizedDeductions x ∧ 0 ≤ minIncomeForCalculation x) ∧
    ((customScenarioCalc specCalculateDeductionComparison
        (specCalculateTaxImpactScenarios (minIncomeForCalculation 50000) .SINGLE
          (safeCurrentItemizedDeductions 0) [])
        50000 0 .SINGLE []
        ⟨"More charity".toList, 5000, "CHARITABLE_CONTRIBUTIONS".toList⟩).itemizedDeductions
        = 5000 ∧
     (customScenarioCalc specCalculateDeductionComparison
        (specCalculateTaxImpactScenarios (minIncomeForCalculation 50000) .SINGLE
          (safeCurrentItemizedDeductions 0) [])
        50000 0 .SINGLE []
        ⟨"More charity".toList, 5000, "CHARITABLE_CONTRIBUTIONS".toList⟩).savings = 0) ∧
    (customScenarioCalc specCalculateDeductionComparison
        (specCalculateTaxImpactScenarios (minIncomeForCalculation 0) .SINGLE
          (safeCurrentItemizedDeductions 0) [])
        0 0 .SINGLE []
        ⟨"Zero income".toList, 5000, "OTHER_DEDUCTIONS".toList⟩).savings = 0 := by
  refine ⟨?_, ?_, ⟨by norm_num [customScenarioCalc, safeCurrentItemizedDeductions], ?_⟩, ?_⟩
  · intro lib base agi itemized status deps sc
    exact ⟨rfl, rfl⟩
  · intro x
    refine ⟨le_max_left 0 x, le_max_left 0 x, ?_⟩
    unfold minIncomeForCalculation safeAdjustedGrossIncome
    have : (0 : ℚ) ≤ 50000 := by norm_num
    exact le_trans this (le_max_right _ _)
  · norm_num [customScenarioCalc, specCalculateTaxImpactScenarios,
      specCalculateDeductionComparison, specTaxLiability, specStandardDeduction,
      minIncomeForCalculation, safeAdjustedGrossIncome,
      safeCurrentItemizedDeductions]
  · norm_num [customScenarioCalc, specCalculateTaxImpactScenarios,
      specCalculateDeductionComparison, specTaxLiability, specStandardDeduction,
      minIncomeForCalculation, safeAdjustedGrossIncome,
      safeCurrentItemizedDeductions]

end C8

section C6

open TaxGrok

/-- Folding scores accumulates the sum and the count of the reported
ones. -/
theorem addScores_eq {α : Type} (g : α → Option ℚ) (tc : ℚ × Nat)
    (l : List α) :
    addScores g tc l =
      (tc.1 + (l.filterMap g).sum, tc.2 + (l.filterMap g).length) := by
  induction l generalizing tc with
  | nil => simp [addScores]
  | cons a t ih =>
    cases hg : g a with
    | none =>
      simpa [addScores, hg, List.filterMap_cons] using ih tc
    | some c =>
      have h2 := ih (tc.1 + c, tc.2 + 1)
      simp only [addScores] at h2
      simp only [addScores, List.foldl_cons, hg]
      rw [h2]
      simp only [List.filterMap_cons, hg, List.sum_cons, List.length_cons,
        Prod.mk.injEq]
      exact ⟨by ring, by omega⟩

/-- Folding the per-page score accumulation over all pages accumulates
the flattened page scores. -/
theorem pagesFold_eq (tc : ℚ × Nat) (pages : List GPage) :
    pages.foldl (fun tc p => addScores fieldScore tc (p.formFields.getD [])) tc =
      (tc.1 + ((pages.map fun p => (p.formFields.getD []).filterMap fieldScore).flatten).sum,
       tc.2 + ((pages.map fun p => (p.formFields.getD []).filterMap fieldScore).flatten).length) := by
  induction pages generalizing tc with
  | nil => simp
  | cons p t ih =>
    simp only [List.foldl_cons, List.map_cons, List.flatten_cons]
    rw [addScores_eq, ih]
    simp [add_assoc]

/-- C6: the primary provider's reported confidence is the arithmetic mean
of all per-entity and per-form-field confidence scores, and zero when none
are reported; the secondary provider's confidence is the constant 0.85. -/
theorem C6_confidence_mean :
    (∀ doc : GDocument,
      (confScores doc = [] → calculateAverageConfidence doc = 0) ∧
      (confScores doc ≠ [] →
        calculateAverageConfidence doc =
          (confScores doc).sum / (confScores doc).length)) ∧
    (∀ (sd : StoredDocument) (dt ocr : Option (List Char)) (ed : List Char)
       (d : ExtractedTaxData),
      processWithLLM sd (.parsed dt ocr ed) = .ok d → d.confidence = 85 / 100) := by
  constructor
  · intro doc
    have hmain : calculateAverageConfidence doc =
        if (confScores doc).length > 0 then
          (confScores doc).sum / (confScores doc).length
        else 0 := by
      simp only [calculateAverageConfidence, confScores]
      rw [addScores_eq, pagesFold_eq]
      simp
    constructor
    · intro h
      rw [hmain, h]
      simp
    · intro h
      rw [hmain, if_pos (List.length_pos.mpr h)]
  · intro sd dt ocr ed d h
    simp only [processWithLLM, Except.ok.injEq] at h
    rw [← h]

end C6

section C1

open TaxGrok

/-- C1 counterexample: with the 1099-INT schema, the generic form-field
path leaves `federalTaxWithheld` empty for a field labeled
`Federal income tax withheld` with value `1200` (the claim demands
`"1200"`), and a later weaker match (`Payer name (see instructions)`)
does overwrite the `payerName` value assigned by the earlier exact field
(the claim demands the earlier value `A` be kept). -/
theorem C1_counterexample :
    getField ("federalTaxWithheld".toList) (extract1099IntData fedDoc) = some [] ∧
    getField ("federalTaxWithheld".toList) (extract1099IntData fedDoc) ≠
      some ("1200".toList) ∧
    getField ("payerName".toList)
      (extractGenericFormFields owDoc data1099IntInit) = some ("B".toList) ∧
    getField ("payerName".toList)
      (extractGenericFormFields owDoc data1099IntInit) ≠ some ("A".toList) := by
  refine ⟨by decide, by decide, by decide, by decide⟩

/-- C1 (amended): the generic path normalizes both the provider label and
each canonical field name by lowercasing and stripping non-alphanumerics
and assigns the value to the first canonical field, in declaration order,
whose normalized name is a substring of the normalized label or vice
versa; but an already-assigned canonical field IS overwritten when a later
provider field also matches it, and the label `Federal income tax
withheld` matches no canonical field under the generic path — in the W2
extractor it is the dedicated keyword fallback that yields
`federalTaxWithheld = "1200"`. -/
theorem C1_generic_fuzzy_match_amended :
    (∀ (label value : List Char) (obj : DataObject),
      ((∀ kv ∈ obj, fuzzyMatches kv.1 label = false) ∧
        fuzzyAssign label value obj = obj) ∨
      (∃ pre kv post, obj = pre ++ kv :: post ∧
        (∀ kv' ∈ pre, fuzzyMatches kv'.1 label = false) ∧
        fuzzyMatches kv.1 label = true ∧
        fuzzyAssign label value obj = pre ++ (kv.1, value) :: post)) ∧
    normalizeLabel ("Federal income tax withheld".toList) =
      "federalincometaxwithheld".toList ∧
    getField ("payerName".toList)
      (extractGenericFormFields owDoc data1099IntInit) = some ("B".toList) ∧
    getField ("federalTaxWithheld".toList) (extract1099IntData fedDoc) = some [] ∧
    getField ("federalTaxWithheld".toList) (extractW2Data fedDoc) =
      some ("1200".toList) := by
  refine ⟨?_, by decide, by decide, by decide, by decide⟩
  intro label value obj
  induction obj with
  | nil =>
    left
    refine ⟨?_, rfl⟩
    intro kv h
    cases h
  | cons kv t ih =>
    obtain ⟨k, v⟩ := kv
    by_cases h : fuzzyMatches k label = true
    · right
      refine ⟨[], (k, v), t, rfl, ?_, h, ?_⟩
      · intro kv' h'
        cases h'
      · simp [fuzzyAssign, h]
    · have h0 : fuzzyMatches k label = false := by
        revert h; cases fuzzyMatches k label <;> simp
      rcases ih with ⟨hall, heq⟩ | ⟨pre, kv0, post, he, hpre, hm, heq⟩
      · left
        constructor
        · intro kv' hmem
          rcases List.mem_cons.mp hmem with rfl | hmem
          · exact h0
          · exact hall _ hmem
        · simp [fuzzyAssign, h0, heq]
      · right
        refine ⟨(k, v) :: pre, kv0, post, by rw [he, List.cons_append], ?_, hm, ?_⟩
        · intro kv' hmem
          rcases List.mem_cons.mp hmem with rfl | hmem
          · exact h0
          · exact hpre _ hmem
        · simp [fuzzyAssign, h0, heq]

end C1

section C5

open TaxGrok

/-- C5: within an authenticated, owner-verified upload, an unsupported
mime type or a size above 10 MiB yields a 400 with no file written and no
Document created; a supported type of size at most 10 MiB (with storage
and insert succeeding) creates a PENDING Document.  The spec's concrete
rejects (`text/plain`; an 11 MiB PDF) and a concrete accept are
evaluated. -/
theorem C5_upload_validation :
    (∀ r : UploadRequest,
      r.authenticated = true → r.userFound = true → r.filePresent = true →
      r.taxReturnIdPresent = true → r.taxReturnOwned = true →
      ((allowedTypes.contains r.fileType = false ∨
          r.fileSize > 10 * 1024 * 1024) →
        (∃ b, (uploadPOST r).response = .json 400 b) ∧
        (uploadPOST r).fileWritten = false ∧
        (uploadPOST r).createdDoc = none) ∧
      (allowedTypes.contains r.fileType = true →
        r.fileSize ≤ 10 * 1024 * 1024 → r.writeOk = true → r.createOk = true →
        ∃ d, (uploadPOST r).createdDoc = some d ∧
          d.processingStatus = .PENDING ∧
          d.documentType = determineDocumentType r.fileName ∧
          (uploadPOST r).response = .documentJson d)) ∧
    (uploadPOST
      { authenticated := true, userFound := true, filePresent := true,
        taxReturnIdPresent := true, taxReturnOwned := true,
        fileType := "text/plain".toList, fileSize := 100,
        fileName := "w2.pdf".toList, writeOk := true, createOk := true }).response =
      .json 400 ("Invalid file type. Supported types: PDF, PNG, JPEG, TIFF".toList) ∧
    (uploadPOST
      { authenticated := true, userFound := true, filePresent := true,
        taxReturnIdPresent := true, taxReturnOwned := true,
        fileType := "text/plain".toList, fileSize := 100,
        fileName := "w2.pdf".toList, writeOk := true, createOk := true }).createdDoc =
      none ∧
    (uploadPOST
      { authenticated := true, userFound := true, filePresent := true,
        taxReturnIdPresent := true, taxReturnOwned := true,
        fileType := "application/pdf".toList, fileSize := 11 * 1024 * 1024,
        fileName := "w2.pdf".toList, writeOk := true, createOk := true }).response =
      .json 400 ("File size exceeds 10MB limit".toList) ∧
    (uploadPOST
      { authenticated := true, userFound := true, filePresent := true,
        taxReturnIdPresent := true, taxReturnOwned := true,
        fileType := "application/pdf".toList, fileSize := 11 * 1024 * 1024,
        fileName := "w2.pdf".toList, writeOk := true, createOk := true }).createdDoc =
      none ∧
    (uploadPOST
      { authenticated := true, userFound := true, filePresent := true,
        taxReturnIdPresent := true, taxReturnOwned := true,
        fileType := "application/pdf".toList, fileSize := 1000,
        fileName := "My-W2-2023.pdf".toList, writeOk := true,
        createOk := true }).createdDoc =
      some { fileName := "My-W2-2023.pdf".toList,
             fileType := "application/pdf".toList, fileSize := 1000,
             documentType := .W2, processingStatus := .PENDING } := by
  refine ⟨?_, by decide, by decide, by decide, by decide, by decide⟩
  intro r ha hu hf ht ho
  constructor
  · intro hbad
    by_cases hmime : allowedTypes.contains r.fileType = true
    · have hmem : r.fileType ∈ allowedTypes := by simpa using hmime
      have hsize : r.fileSize > 10 * 1024 * 1024 := by
        rcases hbad with h | h
        · rw [hmime] at h; cases h
        · exact h
      have hres : uploadPOST r =
          ⟨.json 400 ("File size exceeds 10MB limit".toList), false, none⟩ := by
        simp [uploadPOST, ha, hu, hf, ht, ho, hmem, hsize]
      rw [hres]
      exact ⟨⟨_, rfl⟩, rfl, rfl⟩
    · simp only [Bool.not_eq_true] at hmime
      have hmem : r.fileType ∉ allowedTypes := by simpa using hmime
      have hres : uploadPOST r =
          ⟨.json 400
            ("Invalid file type. Supported types: PDF, PNG, JPEG, TIFF".toList),
           false, none⟩ := by
        simp [uploadPOST, ha, hu, hf, ht, ho, hmem]
      rw [hres]
      exact ⟨⟨_, rfl⟩, rfl, rfl⟩
  · intro hmime hsize hw hc
    have hmem : r.fileType ∈ allowedTypes := by simpa using hmime
    have hsize' : ¬ r.fileSize > 10 * 1024 * 1024 := by omega
    refine ⟨{ fileName := r.fileName, fileType := r.fileType,
              fileSize := r.fileSize,
              documentType := determineDocumentType r.fileName,
              processingStatus := .PENDING }, ?_, rfl, rfl, ?_⟩ <;>
      simp [uploadPOST, ha, hu, hf, ht, ho, hmem, hsize', hw, hc]

end C5

section C3

open TaxGrok

/-- C3: in one processing attempt the status writes are monotone
PENDING→PROCESSING→(COMPLETED | FAILED) with no step back after a
terminal write; extraction data is persisted exactly when the attempt
reaches COMPLETED; and every response body is drawn from the fixed set of
generic messages — a failure surfaces only the generic 500 (or an aborted
stream carrying no detail). -/
theorem C3_status_monotonic (r : ProcessRequest) :
    ((processPOST r).statusUpdates = [] ∨
     (processPOST r).statusUpdates = [.PROCESSING, .COMPLETED] ∨
     (processPOST r).statusUpdates = [.PROCESSING, .FAILED]) ∧
    ((processPOST r).savedData.isSome = true ↔
      (processPOST r).statusUpdates = [.PROCESSING, .COMPLETED]) ∧
    ((processPOST r).response = .stream ∨
     (processPOST r).response = .json 401 ("Unauthorized".toList) ∨
     (processPOST r).response = .json 404 ("User not found".toList) ∨
     (processPOST r).response = .json 404 ("Document not found".toList) ∨
     (processPOST r).response = .json 500 ("Internal server error".toList)) ∧
    ((processPOST r).statusUpdates = [.PROCESSING, .FAILED] →
      (processPOST r).response = .json 500 ("Internal server error".toList) ∨
      ((processPOST r).response = .stream ∧
        (processPOST r).events.getLast? = some .aborted)) := by
  obtain ⟨ha, hu, hd, env, doc, prim, llm, save⟩ := r
  cases ha
  · simp [processPOST]
  cases hu
  · simp [processPOST]
  cases hd
  · simp [processPOST]
  by_cases hAI : useDocumentAI env = true
  · cases prim with
    | returns d =>
      cases save <;>
        simp [processPOST, hAI, List.getLast?_concat]
    | throws =>
      cases llm <;> cases save <;>
        simp [processPOST, hAI, processWithLLM, List.getLast?_concat]
  · simp only [Bool.not_eq_true] at hAI
    cases llm <;> cases save <;>
      simp [processPOST, hAI, processWithLLM, List.getLast?_concat]

end C3

section C4

open TaxGrok

/-- C4: the primary provider is invoked exactly when the three
configuration values are all (truthily) present; a missing configuration
or a thrown primary call routes to the LLM fallback; no configuration
error reaches the caller (every JSON error of the processing stage is the
generic 500); and exactly one provider's result is kept per attempt. -/
theorem C4_provider_selection :
    (∀ r : ProcessRequest,
      r.authenticated = true → r.userFound = true → r.docFound = true →
      ((processPOST r).primaryUsed =
        (truthy r.env.googleCloudProjectId &&
         truthy r.env.googleCloudW2ProcessorId &&
         truthy r.env.googleApplicationCredentials)) ∧
      ((useDocumentAI r.env = false ∨ r.primary = .throws) →
        (processPOST r).llmUsed = true) ∧
      (∀ s b, (processPOST r).response = .json s b →
        s = 500 ∧ b = "Internal server error".toList) ∧
      ((processPOST r).resultFrom = some .primary →
        (processPOST r).primaryUsed = true ∧ ∃ d, r.primary = .returns d) ∧
      ((processPOST r).resultFrom = some .llm →
        (processPOST r).llmUsed = true ∧
        ∃ d, processWithLLM r.doc r.llm = .ok d) ∧
      ((processPOST r).savedData.isSome = true →
        (processPOST r).resultFrom.isSome = true)) ∧
    (processPOST fallbackReq).primaryUsed = false ∧
    (processPOST fallbackReq).llmUsed = true ∧
    (processPOST fallbackReq).statusUpdates = [.PROCESSING, .COMPLETED] := by
  refine ⟨?_, by decide, by decide, by decide⟩
  intro r ha hu hd
  obtain ⟨ha', hu', hd', env, doc, prim, llm, save⟩ := r
  simp only at ha hu hd
  subst ha hu hd
  by_cases hAI : useDocumentAI env = true
  · have henv : (truthy env.googleCloudProjectId &&
        truthy env.googleCloudW2ProcessorId &&
        truthy env.googleApplicationCredentials) = true := hAI
    cases prim with
    | returns d =>
      cases save <;>
        simp [processPOST, hAI, henv, List.getLast?_concat]
    | throws =>
      cases llm <;> cases save <;>
        simp [processPOST, hAI, henv, processWithLLM, List.getLast?_concat]
  · have henv : (truthy env.googleCloudProjectId &&
        truthy env.googleCloudW2ProcessorId &&
        truthy env.googleApplicationCredentials) = false := by
      simpa [useDocumentAI] using hAI
    simp only [Bool.not_eq_true] at hAI
    cases llm <;> cases save <;>
      simp [processPOST, hAI, henv, processWithLLM, List.getLast?_concat]

end C4

section C7

open TaxGrok

/-- The chunks concatenate back to the chunked string. -/
theorem chunk100_flatten (s : List Char) : (chunk100 s).flatten = s := by
  induction s using chunk100.induct with
  | case1 => rw [chunk100]; rfl
  | case2 c t ih =>
    rw [chunk100]
    simp only [List.flatten_cons, ih, List.take_append_drop]

/-- Every chunk is non-empty and at most 100 characters long. -/
theorem chunk100_sizes (s : List Char) :
    ∀ c ∈ chunk100 s, c ≠ [] ∧ c.length ≤ 100 := by
  induction s using chunk100.induct with
  | case1 => rw [chunk100]; intro c h; cases h
  | case2 c t ih =>
    rw [chunk100]
    intro x hx
    rcases List.mem_cons.mp hx with rfl | hx
    · exact ⟨by simp, by simp⟩
    · exact ih x hx

/-- Every chunk except possibly the last is exactly 100 characters
long. -/
theorem chunk100_dropLast_sizes (s : List Char) :
    ∀ c ∈ (chunk100 s).dropLast, c.length = 100 := by
  induction s using chunk100.induct with
  | case1 => rw [chunk100]; intro c h; cases h
  | case2 c t ih =>
    rw [chunk100]
    intro x hx
    by_cases hrest : chunk100 ((c :: t).drop 100) = []
    · rw [hrest] at hx
      cases hx
    · rw [List.dropLast_cons_of_ne_nil hrest] at hx
      rcases List.mem_cons.mp hx with rfl | hx
      · have hlen : 100 ≤ (c :: t).length := by
          by_contra hlt
          push_neg at hlt
          have hnil : (c :: t).drop 100 = [] := List.drop_eq_nil_of_le (by omega)
          rw [hnil, chunk100] at hrest
          exact hrest rfl
        have hlen2 : 100 ≤ t.length + 1 := by simpa using hlen
        simp [List.length_take]
        omega
      · exact ih x hx

/-- C7: a successful attempt emits the serialized result as consecutive
100-character slices (the last possibly shorter) whose concatenation is
the serialized JSON, each slice as one `content` event, terminated by the
`[DONE]` event, with the documented wire framing. -/
theorem C7_chunked_event_stream :
    (∀ s : List Char, (chunk100 s).flatten = s) ∧
    (∀ (s : List Char), ∀ c ∈ chunk100 s, c ≠ [] ∧ c.length ≤ 100) ∧
    (∀ (s : List Char), ∀ c ∈ (chunk100 s).dropLast, c.length = 100) ∧
    (∀ r : ProcessRequest, r.saveOk = true →
      ∀ sd, (processPOST r).savedData = some sd →
        (processPOST r).events =
          (chunk100 (serializeResult
            ⟨sd.documentType, sd.ocrText, sd.extractedData, sd.confidence⟩)).map
              .content ++ [.done]) ∧
    (∀ c : List Char,
      frameEvent (.content c) =
        "data: \x7b\"content\":".toList ++ jsonStr c ++ "\x7d\n\n".toList) ∧
    frameEvent .done = "data: [DONE]\n\n".toList := by
  refine ⟨chunk100_flatten, chunk100_sizes, chunk100_dropLast_sizes, ?_,
    fun c => rfl, rfl⟩
  intro r hsave sd hsd
  obtain ⟨ha, hu, hd, env, doc, prim, llm, save⟩ := r
  simp only at hsave
  subst hsave
  cases ha
  · simp [processPOST] at hsd
  cases hu
  · simp [processPOST] at hsd
  cases hd
  · simp [processPOST] at hsd
  by_cases hAI : useDocumentAI env = true
  · cases prim with
    | returns d =>
      simp [processPOST, hAI] at hsd ⊢
      rw [← hsd]
    | throws =>
      cases llm <;> simp [processPOST, hAI, processWithLLM] at hsd ⊢ <;>
        rw [← hsd]
  · simp only [Bool.not_eq_true] at hAI
    cases llm <;> simp [processPOST, hAI, processWithLLM] at hsd ⊢ <;>
      rw [← hsd]

end C7
